import Mathlib

/-!
Shallow embedding of the dual-ledger counter engine of this repository,
taken from `src/app/src/hooks/use-counter-program.ts` (a React hook that
drives a counter account living on either the Solana base ledger or a
MagicBlock ephemeral-rollup ledger).

Modelling conventions:
- every network call (RPC fetch, blockhash fetch, transaction submission,
  confirmation, wallet signing) is a suspension point whose outcome is an
  explicit argument of type `Except String _` or `FetchOutcome`;
- React state setters are modelled as an `Event` trace; the hook state
  reached by an operation is the fold of `applyEvent` over its trace;
- thrown JavaScript exceptions are modelled as `Except.error msg` results,
  so a function returning a plain trace (no `Except`) cannot throw;
- public keys are abstract identities (`PubKey`), u64 counter values are
  `Nat` (the client never does arithmetic on them, only transports them).
-/

namespace CounterEngine

/-- Public keys, modelled as abstract natural-number identities. -/
structure PubKey where
  id : Nat
deriving DecidableEq, Repr

/-- The well-known delegation program identifier
(`DELeGGvXpWV2fqJUhqcF5ZSYMS4JTLjteaAMARRSaeSh` in the source); when a
counter account is delegated, its base-layer owner becomes this key. -/
def DELEGATION_PROGRAM_ID : PubKey := ⟨1000000⟩

/-- Delegation status enum of the source:
`type DelegationStatus = "undelegated" | "delegated" | "checking"`. -/
inductive DelegationStatus where
  | checking
  | undelegated
  | delegated
deriving DecidableEq, Repr

/-- Decoded counter account: `{ count: bigint; authority: PublicKey }`. -/
structure CounterAccount where
  count : Nat
  authority : PubKey
deriving DecidableEq, Repr

/-- Raw base-layer account info as returned by `connection.getAccountInfo`;
only the owner field is consulted by the delegation check. -/
structure AccountInfo where
  owner : PubKey
deriving DecidableEq, Repr

/-- The two ledgers of the system. -/
inductive Ledger where
  | base
  | rollup
deriving DecidableEq, Repr

/-- Program instruction invoked by a mutating call.  The source name of the
first constructor is `initialize`. -/
inductive MethodId where
  | initCounter
  | increment
  | decrement
  | setValue (v : Nat)
  | delegate
  | commit
  | undelegate
deriving DecidableEq, Repr

/-- Record of a transaction as built, signed and submitted by the hook.
`accCounter`, `accSigner`, `accSessionToken`, `accPayer`, `accAuthority`
are the named accounts passed to the instruction (a `none` in
`accSessionToken` is the explicit `sessionToken: null` of the source for
methods that take that account; methods that do not take an account leave
its field `none` as well). -/
structure TxRecord where
  method : MethodId
  ledger : Ledger
  blockhash : Nat
  feePayer : PubKey
  signedBy : PubKey
  skipPreflight : Bool
  accCounter : Option PubKey
  accSigner : Option PubKey
  accSessionToken : Option PubKey
  accPayer : Option PubKey
  accAuthority : Option PubKey
deriving DecidableEq, Repr

/-- Observable actions of an operation: React state-setter calls plus the
externally visible submission / confirmation / wait steps. -/
inductive Event where
  | setLoading (b : Bool)
  | setDelegating (b : Bool)
  | setError (e : Option String)
  | setStatus (st : DelegationStatus)
  | setErValue (v : Option Nat)
  | setAccount (a : Option CounterAccount)
  | submit (tx : TxRecord)
  | confirmOn (l : Ledger)
  | waitMs (n : Nat)
  | recheckStatus
deriving DecidableEq, Repr

/-- Hook state touched by the events (the `useState` cells of the hook). -/
structure HookState where
  counterAccount : Option CounterAccount
  isLoading : Bool
  isDelegating : Bool
  error : Option String
  delegationStatus : DelegationStatus
  erCounterValue : Option Nat
deriving DecidableEq, Repr

/-- Effect of one event on the hook state; submissions, confirmations and
waits touch the outside world, not the hook state. -/
def applyEvent (s : HookState) : Event → HookState
  | .setLoading b => { s with isLoading := b }
  | .setDelegating b => { s with isDelegating := b }
  | .setError e => { s with error := e }
  | .setStatus st => { s with delegationStatus := st }
  | .setErValue v => { s with erCounterValue := v }
  | .setAccount a => { s with counterAccount := a }
  | .submit _ => s
  | .confirmOn _ => s
  | .waitMs _ => s
  | .recheckStatus => s

/-- State reached after an event trace. -/
def run (s : HookState) (evs : List Event) : HookState :=
  evs.foldl applyEvent s

/-- Call context of the hook: which handles are available and the current
session state.  `programPresent` stands for the base-layer Anchor program
(non-null iff the wallet is connected with signing capabilities);
`erPresent` stands for `erProvider`/`erProgram` (built under the same
condition); `sessionToken`/`sessionPk`/`sessionCanSign` model the session
key manager (`sessionWallet.publicKey` and the presence of
`sessionWallet.signTransaction`). -/
structure Ctx where
  programPresent : Bool
  erPresent : Bool
  walletPk : Option PubKey
  counterPubkey : Option PubKey
  sessionToken : Option PubKey
  sessionPk : PubKey
  sessionCanSign : Bool
deriving DecidableEq, Repr

/-- Outcome of an account fetch through the Anchor coder: either the
decoded account or a thrown error carrying a message. -/
inductive FetchOutcome where
  | ok (a : CounterAccount)
  | err (msg : String)
deriving DecidableEq, Repr

/-- Substring occurrence on character lists (used to model the
`String.prototype.includes` checks of the source). -/
def containsSeg (pat : List Char) : List Char → Bool
  | [] => pat.isPrefixOf []
  | c :: t => pat.isPrefixOf (c :: t) || containsSeg pat t

/-- Substring occurrence on strings. -/
def strContains (s pat : String) : Bool :=
  containsSeg pat.toList s.toList

/-- The source treats a fetch error as the expected account-absence case
when its message includes one of two fixed fragments:
`err.message.includes("Account does not exist") ||
 err.message.includes("could not find account")`. -/
def isAccountMissingMsg (msg : String) : Bool :=
  strContains msg "Account does not exist" || strContains msg "could not find account"

/-- Event trace of `fetchCounterAccount`: on success store the account and
clear the error slot; on failure drop the account and record the message
only when it is not the expected absence case.  Catches internally, so it
produces a trace and no `Except`. -/
def fetchCounterAccount (ctx : Ctx) (res : FetchOutcome) : List Event :=
  if ctx.programPresent && ctx.counterPubkey.isSome then
    match res with
    | .ok a => [.setAccount (some a), .setError none]
    | .err m =>
        [.setAccount none] ++ (if isAccountMissingMsg m then [] else [.setError (some m)])
  else
    [.setAccount none]

/-- Event trace of `checkDelegationStatus`.  `accountInfoRes` is the
outcome of `connection.getAccountInfo` on the base layer (`.ok none` when
the account does not exist, `.error` on a transport failure);
`erFetchRes` is the outcome of the opportunistic rollup-ledger read.
Every failure is caught internally (the function returns a trace, never
an exception) and the error slot is never written by any branch. -/
def checkDelegationStatus (ctx : Ctx)
    (accountInfoRes : Except String (Option AccountInfo))
    (erFetchRes : Except String CounterAccount) : List Event :=
  match ctx.counterPubkey with
  | none => [.setStatus .checking]
  | some _ =>
    .setStatus .checking ::
    match accountInfoRes with
    | .error _ => [.setStatus .undelegated, .setErValue none]
    | .ok none => [.setStatus .undelegated, .setErValue none]
    | .ok (some info) =>
      if info.owner = DELEGATION_PROGRAM_ID then
        .setStatus .delegated ::
        (if ctx.erPresent then
          match erFetchRes with
          | .ok a => [.setErValue (some a.count)]
          | .error _ => []
        else [])
      else
        [.setStatus .undelegated, .setErValue none]

/-- Uniform try/catch/finally wrapper of the mutating operations:
`setIsLoading(true); setError(null); try ... catch (err) setError(msg),
rethrow; finally setIsLoading(false)`.  `attempt` is the trace and result
of the try body. -/
def wrapTry (attempt : List Event × Except String String) :
    List Event × Except String String :=
  match attempt with
  | (evs, .ok r) =>
      (.setLoading true :: .setError none :: (evs ++ [.setLoading false]), .ok r)
  | (evs, .error e) =>
      (.setLoading true :: .setError none ::
        (evs ++ [.setError (some e), .setLoading false]), .error e)

/-- Transaction built and submitted by `initialize` through
`program.methods.initialize().accounts({authority: wallet.publicKey}).rpc()`:
base ledger, primary wallet signs and pays, preflight not skipped. -/
def initTx (w : PubKey) (bh : Nat) : TxRecord :=
  { method := .initCounter, ledger := .base, blockhash := bh, feePayer := w,
    signedBy := w, skipPreflight := false, accCounter := none, accSigner := none,
    accSessionToken := none, accPayer := none, accAuthority := some w }

/-- Operation `initialize` of the hook (source name `initialize`): guard on
program and wallet, then one base-ledger transaction via `.rpc()` (which
signs with the provider wallet and awaits confirmed commitment), then
`await fetchCounterAccount()`. -/
def initializeCounter (ctx : Ctx) (baseBh : Nat)
    (rpcRes : Except String String) (fetchRes : FetchOutcome) :
    List Event × Except String String :=
  match ctx.programPresent, ctx.walletPk with
  | true, some w =>
    wrapTry (match rpcRes with
      | .error e => ([], .error e)
      | .ok t =>
          ([.submit (initTx w baseBh), .confirmOn .base] ++
            fetchCounterAccount ctx fetchRes, .ok t))
  | _, _ => ([], .error "Wallet not connected")

/-- Transaction built by the base-layer `increment`, `decrement` and `set`
operations: accounts `{counter, signer: wallet.publicKey, sessionToken:
null}`, submitted via `.rpc()` on the base ledger, signed and paid by the
primary wallet. -/
def baseMutTx (w cp : PubKey) (m : MethodId) (bh : Nat) : TxRecord :=
  { method := m, ledger := .base, blockhash := bh, feePayer := w,
    signedBy := w, skipPreflight := false, accCounter := some cp,
    accSigner := some w, accSessionToken := none, accPayer := none,
    accAuthority := none }

/-- Operation `increment` of the hook (base layer).  Note: no account
refetch after the transaction; the refresh arrives through the
base-ledger subscription. -/
def increment (ctx : Ctx) (baseBh : Nat) (rpcRes : Except String String) :
    List Event × Except String String :=
  match ctx.programPresent, ctx.walletPk, ctx.counterPubkey with
  | true, some w, some cp =>
    wrapTry (match rpcRes with
      | .error e => ([], .error e)
      | .ok t => ([.submit (baseMutTx w cp .increment baseBh), .confirmOn .base], .ok t))
  | _, _, _ => ([], .error "Counter not initialized")

/-- Operation `decrement` of the hook (base layer). -/
def decrement (ctx : Ctx) (baseBh : Nat) (rpcRes : Except String String) :
    List Event × Except String String :=
  match ctx.programPresent, ctx.walletPk, ctx.counterPubkey with
  | true, some w, some cp =>
    wrapTry (match rpcRes with
      | .error e => ([], .error e)
      | .ok t => ([.submit (baseMutTx w cp .decrement baseBh), .confirmOn .base], .ok t))
  | _, _, _ => ([], .error "Counter not initialized")

/-- Operation `set` of the hook (base layer; source name `set`). -/
def setOp (ctx : Ctx) (v : Nat) (baseBh : Nat) (rpcRes : Except String String) :
    List Event × Except String String :=
  match ctx.programPresent, ctx.walletPk, ctx.counterPubkey with
  | true, some w, some cp =>
    wrapTry (match rpcRes with
      | .error e => ([], .error e)
      | .ok t => ([.submit (baseMutTx w cp (.setValue v) baseBh), .confirmOn .base], .ok t))
  | _, _, _ => ([], .error "Counter not initialized")

/-- Transaction built by `performErAction`: `hasSession = sessionToken !=
null && sessionWallet != null`; the signer account is the session key when
a session exists, otherwise the wallet; the fee payer starts as the wallet
and is switched to the session key exactly when the session wallet also
offers `signTransaction`, in which case the session wallet signs, else the
primary provider wallet signs.  Rollup ledger, rollup blockhash,
`skipPreflight = true`. -/
def erTx (ctx : Ctx) (w cp : PubKey) (m : MethodId) (bh : Nat) : TxRecord :=
  let hasSession := ctx.sessionToken.isSome
  let sessionSigns := hasSession && ctx.sessionCanSign
  { method := m, ledger := .rollup, blockhash := bh,
    feePayer := if sessionSigns then ctx.sessionPk else w,
    signedBy := if sessionSigns then ctx.sessionPk else w,
    skipPreflight := true,
    accCounter := some cp,
    accSigner := some (if hasSession then ctx.sessionPk else w),
    accSessionToken := if hasSession then ctx.sessionToken else none,
    accPayer := none, accAuthority := none }

/-- The templated rollup action routine `performErAction` (shared by
`incrementOnER`, `decrementOnER`, `setOnER`).  Guard: program, rollup
provider, wallet key and counter address must be present — the delegation
status is not consulted.  `bhRes` is the outcome of
`erConnection.getLatestBlockhash()` (the routine takes no base-ledger
anchor), `signRes` the wallet/session signing outcome, `sendRes` the
outcome of `erConnection.sendRawTransaction(..., {skipPreflight: true})`,
`confirmRes` of `erConnection.confirmTransaction`, `refreshRes` of the
best-effort rollup account re-read. -/
def performErAction (ctx : Ctx) (m : MethodId)
    (bhRes : Except String Nat) (signRes : Except String Unit)
    (sendRes : Except String String) (confirmRes : Except String Unit)
    (refreshRes : Except String CounterAccount) :
    List Event × Except String String :=
  match ctx.programPresent, ctx.erPresent, ctx.walletPk, ctx.counterPubkey with
  | true, true, some w, some cp =>
    wrapTry (
      match bhRes with
      | .error e => ([], .error e)
      | .ok bh =>
        match signRes with
        | .error e => ([], .error e)
        | .ok _ =>
          match sendRes with
          | .error e => ([.submit (erTx ctx w cp m bh)], .error e)
          | .ok txHash =>
            match confirmRes with
            | .error e => ([.submit (erTx ctx w cp m bh), .confirmOn .rollup], .error e)
            | .ok _ =>
                ([.submit (erTx ctx w cp m bh), .confirmOn .rollup] ++
                  (match refreshRes with
                   | .ok a => [.setErValue (some a.count)]
                   | .error _ => []), .ok txHash))
  | _, _, _, _ => ([], .error "Counter not initialized or not delegated")

/-- Transaction built by `delegate`: one base-ledger `.rpc({skipPreflight:
true})` call with account `{payer: wallet.publicKey}`. -/
def delegateTx (w : PubKey) (bh : Nat) : TxRecord :=
  { method := .delegate, ledger := .base, blockhash := bh, feePayer := w,
    signedBy := w, skipPreflight := true, accCounter := none, accSigner := none,
    accSessionToken := none, accPayer := some w, accAuthority := none }

/-- Operation `delegate` of the hook: submit on the base ledger, wait the
fixed 2000 ms settle interval, then `await checkDelegationStatus()`
(whose trace is inlined here after the `recheckStatus` marker).  Sets both
the loading and the delegating flags around the attempt. -/
def delegate (ctx : Ctx) (baseBh : Nat) (rpcRes : Except String String)
    (accountInfoRes : Except String (Option AccountInfo))
    (erFetchRes : Except String CounterAccount) :
    List Event × Except String String :=
  match ctx.programPresent, ctx.walletPk with
  | true, some w =>
    let attempt : List Event × Except String String :=
      match rpcRes with
      | .error e => ([], .error e)
      | .ok t =>
          ([.submit (delegateTx w baseBh), .confirmOn .base, .waitMs 2000,
            .recheckStatus] ++ checkDelegationStatus ctx accountInfoRes erFetchRes,
           .ok t)
    match attempt with
    | (evs, .ok r) =>
        (.setLoading true :: .setDelegating true :: .setError none ::
          (evs ++ [.setLoading false, .setDelegating false]), .ok r)
    | (evs, .error e) =>
        (.setLoading true :: .setDelegating true :: .setError none ::
          (evs ++ [.setError (some e), .setLoading false, .setDelegating false]),
         .error e)
  | _, _ => ([], .error "Wallet not connected")

/-- Transaction built by `commit`: base program definition targeted at the
rollup ledger, account `{payer: wallet.publicKey}`, primary wallet signs
and pays, rollup blockhash, `skipPreflight = true`. -/
def commitTx (w : PubKey) (bh : Nat) : TxRecord :=
  { method := .commit, ledger := .rollup, blockhash := bh, feePayer := w,
    signedBy := w, skipPreflight := true, accCounter := none, accSigner := none,
    accSessionToken := none, accPayer := some w, accAuthority := none }

/-- Operation `commit` of the hook: submit the commit instruction to the
rollup ledger, await rollup confirmation, then (after a best-effort
commitment-signature lookup that is caught and ignored) refresh the
base-layer account. -/
def commit (ctx : Ctx) (bhRes : Except String Nat) (signRes : Except String Unit)
    (sendRes : Except String String) (confirmRes : Except String Unit)
    (fetchRes : FetchOutcome) : List Event × Except String String :=
  match ctx.programPresent, ctx.erPresent, ctx.walletPk, ctx.counterPubkey with
  | true, true, some w, some _ =>
    wrapTry (
      match bhRes with
      | .error e => ([], .error e)
      | .ok bh =>
        match signRes with
        | .error e => ([], .error e)
        | .ok _ =>
          match sendRes with
          | .error e => ([.submit (commitTx w bh)], .error e)
          | .ok txHash =>
            match confirmRes with
            | .error e => ([.submit (commitTx w bh), .confirmOn .rollup], .error e)
            | .ok _ =>
                ([.submit (commitTx w bh), .confirmOn .rollup] ++
                  fetchCounterAccount ctx fetchRes, .ok txHash))
  | _, _, _, _ => ([], .error "Counter not initialized or not delegated")

/-- Transaction built by `undelegate`: undelegate instruction targeted at
the rollup ledger, account `{payer: wallet.publicKey}`, primary wallet
signs and pays, rollup blockhash, `skipPreflight = true`. -/
def undelegateTx (w : PubKey) (bh : Nat) : TxRecord :=
  { method := .undelegate, ledger := .rollup, blockhash := bh, feePayer := w,
    signedBy := w, skipPreflight := true, accCounter := none, accSigner := none,
    accSessionToken := none, accPayer := some w, accAuthority := none }

/-- Operation `undelegate` of the hook: submit to the rollup ledger, await
rollup confirmation, wait the fixed 2000 ms settle interval, force the
status to `undelegated` and drop the cached rollup value, then refresh the
base-layer account.  No delegation-status re-check is invoked here. -/
def undelegate (ctx : Ctx) (bhRes : Except String Nat) (signRes : Except String Unit)
    (sendRes : Except String String) (confirmRes : Except String Unit)
    (fetchRes : FetchOutcome) : List Event × Except String String :=
  match ctx.programPresent, ctx.erPresent, ctx.walletPk, ctx.counterPubkey with
  | true, true, some w, some _ =>
    wrapTry (
      match bhRes with
      | .error e => ([], .error e)
      | .ok bh =>
        match signRes with
        | .error e => ([], .error e)
        | .ok _ =>
          match sendRes with
          | .error e => ([.submit (undelegateTx w bh)], .error e)
          | .ok txHash =>
            match confirmRes with
            | .error e => ([.submit (undelegateTx w bh), .confirmOn .rollup], .error e)
            | .ok _ =>
                ([.submit (undelegateTx w bh), .confirmOn .rollup, .waitMs 2000,
                  .setStatus .undelegated, .setErValue none] ++
                  fetchCounterAccount ctx fetchRes, .ok txHash))
  | _, _, _, _ => ([], .error "Counter not initialized or not delegated")

/-- Dependency snapshot of the rollup subscription effect (the
`useEffect` with dependency list `[erProgram, counterPubkey, erConnection,
delegationStatus]`). -/
structure ErDeps where
  erPresent : Bool
  counterPubkey : Option PubKey
  status : DelegationStatus
deriving DecidableEq, Repr

/-- Subscription lifecycle actions of the rollup effect. -/
inductive SubEvent where
  | removeListener
  | subscribe (addr : PubKey)
deriving DecidableEq, Repr

/-- Guard under which the rollup effect establishes a subscription
(negation of its early return `!erProgram || !counterPubkey ||
delegationStatus !== "delegated"`). -/
def erGuard (d : ErDeps) : Bool :=
  d.erPresent && d.counterPubkey.isSome && (d.status == .delegated)

/-- One run of the rollup subscription effect: React first runs the
cleanup of the previous run (removing the old listener when one exists),
then the effect body, which subscribes exactly when the guard holds.
Returns the new subscription handle and the emitted lifecycle actions. -/
def stepEr (d : ErDeps) (old : Option PubKey) : Option PubKey × List SubEvent :=
  let cleanup : List SubEvent := match old with
    | some _ => [.removeListener]
    | none => []
  match d.erPresent, d.counterPubkey, d.status with
  | true, some a, .delegated => (some a, cleanup ++ [.subscribe a])
  | _, _, _ => (none, cleanup)

/-- Subscription handle after a sequence of effect runs. -/
def runEr (start : Option PubKey) (ds : List ErDeps) : Option PubKey :=
  ds.foldl (fun s d => (stepEr d s).1) start

/-! Helper lemmas about `run` and the two internal read routines. -/

@[simp]
theorem run_nil (s : HookState) : run s [] = s := rfl

@[simp]
theorem run_cons (s : HookState) (e : Event) (l : List Event) :
    run s (e :: l) = run (applyEvent s e) l := rfl

theorem run_append (s : HookState) (l₁ l₂ : List Event) :
    run s (l₁ ++ l₂) = run (run s l₁) l₂ := by
  simp [run, List.foldl_append]

/-- Error slot left by a `fetchCounterAccount` trace started from a
cleared error slot, assuming the fetch guard holds. -/
def fetchErrSlot : FetchOutcome → Option String
  | .ok _ => none
  | .err m => if isAccountMissingMsg m then none else some m

theorem run_fetch_error (ctx : Ctx) (f : FetchOutcome) (s : HookState)
    (hg : ctx.programPresent = true) (hc : ctx.counterPubkey.isSome = true)
    (hs : s.error = none) :
    (run s (fetchCounterAccount ctx f)).error = fetchErrSlot f := by
  cases f with
  | ok a => simp [fetchCounterAccount, fetchErrSlot, hg, hc, applyEvent]
  | err m =>
      by_cases hm : isAccountMissingMsg m <;>
        simp [fetchCounterAccount, fetchErrSlot, hg, hc, hm, applyEvent, hs]

theorem run_fetch_isLoading (ctx : Ctx) (f : FetchOutcome) (s : HookState) :
    (run s (fetchCounterAccount ctx f)).isLoading = s.isLoading := by
  unfold fetchCounterAccount
  by_cases hg : ctx.programPresent && ctx.counterPubkey.isSome <;>
    cases f <;> simp [hg, applyEvent] <;>
    split <;> simp [applyEvent]

theorem run_check_error (ctx : Ctx)
    (aRes : Except String (Option AccountInfo))
    (eRes : Except String CounterAccount) (s : HookState) :
    (run s (checkDelegationStatus ctx aRes eRes)).error = s.error := by
  unfold checkDelegationStatus
  cases hcp : ctx.counterPubkey with
  | none => simp [applyEvent]
  | some cp =>
      cases aRes with
      | error e => simp [applyEvent]
      | ok oi =>
          cases oi with
          | none => simp [applyEvent]
          | some info =>
              by_cases ho : info.owner = DELEGATION_PROGRAM_ID <;>
                by_cases he : ctx.erPresent <;>
                cases eRes <;> simp [ho, he, applyEvent]

theorem run_check_isLoading (ctx : Ctx)
    (aRes : Except String (Option AccountInfo))
    (eRes : Except String CounterAccount) (s : HookState) :
    (run s (checkDelegationStatus ctx aRes eRes)).isLoading = s.isLoading := by
  unfold checkDelegationStatus
  cases hcp : ctx.counterPubkey with
  | none => simp [applyEvent]
  | some cp =>
      cases aRes with
      | error e => simp [applyEvent]
      | ok oi =>
          cases oi with
          | none => simp [applyEvent]
          | some info =>
              by_cases ho : info.owner = DELEGATION_PROGRAM_ID <;>
                by_cases he : ctx.erPresent <;>
                cases eRes <;> simp [ho, he, applyEvent]

/-! Concrete instances used by witnesses and counterexamples. -/

/-- A context in which every handle is present and no session is active. -/
def ctxAll : Ctx :=
  { programPresent := true, erPresent := true, walletPk := some ⟨1⟩,
    counterPubkey := some ⟨2⟩, sessionToken := none, sessionPk := ⟨3⟩,
    sessionCanSign := false }

/-- A context like `ctxAll` but with an active, signing-capable session. -/
def ctxSession : Ctx :=
  { programPresent := true, erPresent := true, walletPk := some ⟨1⟩,
    counterPubkey := some ⟨2⟩, sessionToken := some ⟨4⟩, sessionPk := ⟨3⟩,
    sessionCanSign := true }

/-- A hook state whose delegation status is `undelegated`. -/
def sUndelegated : HookState :=
  { counterAccount := none, isLoading := false, isDelegating := false,
    error := none, delegationStatus := .undelegated, erCounterValue := none }

/-! Claim theorems. -/

/-- C2: for every known address, the delegation check resolves as follows:
a missing base-ledger account gives status `undelegated` and clears the
cached rollup value; a present account owned by the delegation program
gives status `delegated` together with a best-effort rollup read (its
success updates the cached rollup value, its failure leaves the cached
value and the status untouched); a present account with any other owner
gives status `undelegated` and clears the cached rollup value. -/
theorem checkDelegation_owner_cases (ctx : Ctx) (s : HookState) (cp : PubKey)
    (erFetchRes : Except String CounterAccount)
    (h : ctx.counterPubkey = some cp) :
    ((run s (checkDelegationStatus ctx (.ok none) erFetchRes)).delegationStatus =
        .undelegated ∧
      (run s (checkDelegationStatus ctx (.ok none) erFetchRes)).erCounterValue =
        none) ∧
    (∀ info : AccountInfo, info.owner = DELEGATION_PROGRAM_ID →
      (run s (checkDelegationStatus ctx (.ok (some info)) erFetchRes)).delegationStatus =
        .delegated ∧
      (∀ a : CounterAccount, ctx.erPresent = true → erFetchRes = .ok a →
        (run s (checkDelegationStatus ctx (.ok (some info)) erFetchRes)).erCounterValue =
          some a.count) ∧
      (∀ e : String, erFetchRes = .error e →
        (run s (checkDelegationStatus ctx (.ok (some info)) erFetchRes)).erCounterValue =
          s.erCounterValue)) ∧
    (∀ info : AccountInfo, info.owner ≠ DELEGATION_PROGRAM_ID →
      (run s (checkDelegationStatus ctx (.ok (some info)) erFetchRes)).delegationStatus =
        .undelegated ∧
      (run s (checkDelegationStatus ctx (.ok (some info)) erFetchRes)).erCounterValue =
        none) := by
  refine ⟨?_, ?_, ?_⟩
  · simp [checkDelegationStatus, h, applyEvent]
  · intro info ho
    refine ⟨?_, ?_, ?_⟩
    · by_cases he : ctx.erPresent <;> cases erFetchRes <;>
        simp [checkDelegationStatus, h, ho, he, applyEvent]
    · intro a he hfe
      subst hfe
      simp [checkDelegationStatus, h, ho, he, applyEvent]
    · intro e hfe
      subst hfe
      by_cases he : ctx.erPresent <;>
        simp [checkDelegationStatus, h, ho, he, applyEvent]
  · intro info ho
    constructor <;> simp [checkDelegationStatus, h, ho, applyEvent]

/-- C2 witness: the delegation check at a concrete context and state. -/
theorem checkDelegation_owner_cases_witness :
    ((run sUndelegated (checkDelegationStatus ctxAll (.ok none)
        (.ok ⟨5, ⟨1⟩⟩))).delegationStatus = .undelegated ∧
      (run sUndelegated (checkDelegationStatus ctxAll (.ok none)
        (.ok ⟨5, ⟨1⟩⟩))).erCounterValue = none) ∧
    (∀ info : AccountInfo, info.owner = DELEGATION_PROGRAM_ID →
      (run sUndelegated (checkDelegationStatus ctxAll (.ok (some info))
          (.ok ⟨5, ⟨1⟩⟩))).delegationStatus = .delegated ∧
      (∀ a : CounterAccount, ctxAll.erPresent = true →
          (Except.ok ⟨5, ⟨1⟩⟩ : Except String CounterAccount) = .ok a →
        (run sUndelegated (checkDelegationStatus ctxAll (.ok (some info))
          (.ok ⟨5, ⟨1⟩⟩))).erCounterValue = some a.count) ∧
      (∀ e : String,
          (Except.ok ⟨5, ⟨1⟩⟩ : Except String CounterAccount) = .error e →
        (run sUndelegated (checkDelegationStatus ctxAll (.ok (some info))
          (.ok ⟨5, ⟨1⟩⟩))).erCounterValue = sUndelegated.erCounterValue)) ∧
    (∀ info : AccountInfo, info.owner ≠ DELEGATION_PROGRAM_ID →
      (run sUndelegated (checkDelegationStatus ctxAll (.ok (some info))
        (.ok ⟨5, ⟨1⟩⟩))).delegationStatus = .undelegated ∧
      (run sUndelegated (checkDelegationStatus ctxAll (.ok (some info))
        (.ok ⟨5, ⟨1⟩⟩))).erCounterValue = none) :=
  checkDelegation_owner_cases ctxAll sUndelegated ⟨2⟩ (.ok ⟨5, ⟨1⟩⟩) rfl

/-- C3: a transport failure of the base-ledger read inside the delegation
check is swallowed (the check is total, returning a trace instead of
raising); the status resolves to `undelegated`, the cached rollup value is
cleared, and the error slot is exactly what it was before the check. -/
theorem checkDelegation_transport_failure (ctx : Ctx) (s : HookState)
    (cp : PubKey) (msg : String) (erFetchRes : Except String CounterAccount)
    (h : ctx.counterPubkey = some cp) :
    (run s (checkDelegationStatus ctx (.error msg) erFetchRes)).delegationStatus =
      .undelegated ∧
    (run s (checkDelegationStatus ctx (.error msg) erFetchRes)).erCounterValue =
      none ∧
    (run s (checkDelegationStatus ctx (.error msg) erFetchRes)).error = s.error := by
  refine ⟨?_, ?_, ?_⟩ <;> simp [checkDelegationStatus, h, applyEvent]

/-- C3 witness: a concrete transport failure with a pre-existing error
slot value that survives the check unchanged. -/
theorem checkDelegation_transport_failure_witness :
    (run { sUndelegated with error := some "older" }
        (checkDelegationStatus ctxAll (.error "connection reset")
          (.ok ⟨5, ⟨1⟩⟩))).delegationStatus = .undelegated ∧
    (run { sUndelegated with error := some "older" }
        (checkDelegationStatus ctxAll (.error "connection reset")
          (.ok ⟨5, ⟨1⟩⟩))).erCounterValue = none ∧
    (run { sUndelegated with error := some "older" }
        (checkDelegationStatus ctxAll (.error "connection reset")
          (.ok ⟨5, ⟨1⟩⟩))).error =
      ({ sUndelegated with error := some "older" } : HookState).error :=
  checkDelegation_transport_failure ctxAll { sUndelegated with error := some "older" }
    ⟨2⟩ "connection reset" (.ok ⟨5, ⟨1⟩⟩) rfl

/-- C1: after any sequence of rollup-effect runs, a rollup subscription
exists iff the current dependencies satisfy the guard (rollup client
present, address known, status `delegated`); moreover whenever the guard
stops holding — status leaves `delegated` or the address becomes unknown —
the effect run removes any existing listener and leaves no subscription. -/
theorem er_subscription_iff_delegated (ds : List ErDeps) (d : ErDeps)
    (start old : Option PubKey) :
    ((runEr start (ds ++ [d])).isSome = erGuard d) ∧
    (erGuard d = false →
      (stepEr d old).1 = none ∧
      (old.isSome = true → SubEvent.removeListener ∈ (stepEr d old).2)) := by
  constructor
  · have hsplit : runEr start (ds ++ [d]) = (stepEr d (runEr start ds)).1 := by
      simp [runEr, List.foldl_append]
    rw [hsplit]
    rcases d with ⟨ep, cp, st⟩
    cases ep <;> rcases cp with _ | a <;> cases st <;>
      simp [stepEr, erGuard]
  · intro hg
    rcases d with ⟨ep, cp, st⟩
    constructor
    · cases ep <;> rcases cp with _ | a <;> cases st <;>
        simp_all [stepEr, erGuard]
    · intro hold
      rcases old with _ | o
      · simp at hold
      · cases ep <;> rcases cp with _ | a <;> cases st <;>
          simp_all [stepEr, erGuard]

/-- C1 witness: a run that reaches `delegated` (subscription present) and
then leaves it (listener removed, no subscription). -/
theorem er_subscription_iff_delegated_witness :
    ((runEr none ([⟨true, some ⟨2⟩, .delegated⟩] ++
        [⟨true, some ⟨2⟩, .undelegated⟩])).isSome =
      erGuard ⟨true, some ⟨2⟩, .undelegated⟩) ∧
    (erGuard ⟨true, some ⟨2⟩, .undelegated⟩ = false →
      (stepEr ⟨true, some ⟨2⟩, .undelegated⟩ (some ⟨2⟩)).1 = none ∧
      ((some ⟨2⟩ : Option PubKey).isSome = true →
        SubEvent.removeListener ∈
          (stepEr ⟨true, some ⟨2⟩, .undelegated⟩ (some ⟨2⟩)).2)) :=
  er_subscription_iff_delegated [⟨true, some ⟨2⟩, .delegated⟩]
    ⟨true, some ⟨2⟩, .undelegated⟩ none (some ⟨2⟩)

/-- C4: on each rollup-targeted mutating call, if a session credential is
present at call time (and the session wallet offers signing, which the
session issuance provides), the transaction the call submits is signed by
the session key and fee-paid by the session key; with no session present
at call time the primary wallet key both signs and pays.  The choice is a
pure function of the call-time context, so it is re-evaluated on every
call and never cached. -/
theorem erAction_signer_selection (ctx : Ctx) (w cp : PubKey) (m : MethodId)
    (bh : Nat) (sendRes : Except String String) (confirmRes : Except String Unit)
    (refreshRes : Except String CounterAccount)
    (hp : ctx.programPresent = true) (he : ctx.erPresent = true)
    (hw : ctx.walletPk = some w) (hc : ctx.counterPubkey = some cp)
    (hs : ctx.sessionToken.isSome = true → ctx.sessionCanSign = true) :
    (Event.submit (erTx ctx w cp m bh) ∈
      (performErAction ctx m (.ok bh) (.ok ()) sendRes confirmRes refreshRes).1) ∧
    (ctx.sessionToken.isSome = true →
      (erTx ctx w cp m bh).signedBy = ctx.sessionPk ∧
      (erTx ctx w cp m bh).feePayer = ctx.sessionPk) ∧
    (ctx.sessionToken.isSome = false →
      (erTx ctx w cp m bh).signedBy = w ∧
      (erTx ctx w cp m bh).feePayer = w) := by
  refine ⟨?_, ?_, ?_⟩
  · cases sendRes with
    | error e =>
        simp [performErAction, hp, he, hw, hc, wrapTry]
    | ok t =>
        cases confirmRes with
        | error e => simp [performErAction, hp, he, hw, hc, wrapTry]
        | ok u =>
            cases refreshRes <;> simp [performErAction, hp, he, hw, hc, wrapTry]
  · intro hst
    have hcs := hs hst
    constructor <;> simp [erTx, hst, hcs]
  · intro hst
    constructor <;> simp [erTx, hst]

/-- C4 witness: signer selection applied in a context with an active
session. -/
theorem erAction_signer_selection_witness :
    (Event.submit (erTx ctxSession ⟨1⟩ ⟨2⟩ .increment 7) ∈
      (performErAction ctxSession .increment (.ok 7) (.ok ()) (.ok "sig")
        (.ok ()) (.error "no fetch")).1) ∧
    (ctxSession.sessionToken.isSome = true →
      (erTx ctxSession ⟨1⟩ ⟨2⟩ .increment 7).signedBy = ctxSession.sessionPk ∧
      (erTx ctxSession ⟨1⟩ ⟨2⟩ .increment 7).feePayer = ctxSession.sessionPk) ∧
    (ctxSession.sessionToken.isSome = false →
      (erTx ctxSession ⟨1⟩ ⟨2⟩ .increment 7).signedBy = ⟨1⟩ ∧
      (erTx ctxSession ⟨1⟩ ⟨2⟩ .increment 7).feePayer = ⟨1⟩) :=
  erAction_signer_selection ctxSession ⟨1⟩ ⟨2⟩ .increment 7 (.ok "sig") (.ok ())
    (.error "no fetch") rfl rfl rfl rfl (fun _ => rfl)

/-- C5 counterexample: with every handle present but the hook state
`undelegated`, the rollup action routine still succeeds and still submits
a transaction — the routine never consults the delegation status (its
guard covers only `program`, `erProvider`, `wallet.publicKey` and
`counterPubkey`), refuting the claim that a non-`delegated` status makes
the operation fail without submitting. -/
theorem erAction_runs_when_undelegated_cex :
    sUndelegated.delegationStatus ≠ DelegationStatus.delegated ∧
    (performErAction ctxAll .increment (.ok 7) (.ok ()) (.ok "sig") (.ok ())
      (.error "no fetch")).2 = .ok "sig" ∧
    Event.submit (erTx ctxAll ⟨1⟩ ⟨2⟩ .increment 7) ∈
      (performErAction ctxAll .increment (.ok 7) (.ok ()) (.ok "sig") (.ok ())
        (.error "no fetch")).1 := by
  refine ⟨by decide, by rfl, ?_⟩
  simp [performErAction, ctxAll, wrapTry]

/-- C5 (amended): every rollup-targeted mutating call requires the base
program, the rollup provider, the wallet key and the counter address to be
present; when any of them is missing the call fails with an error and
submits nothing.  The delegation status itself is not part of the guard
(a call made while not `delegated` still submits and is left to the
rollup to reject). -/
theorem erAction_precondition (ctx : Ctx) (m : MethodId)
    (bhRes : Except String Nat) (signRes : Except String Unit)
    (sendRes : Except String String) (confirmRes : Except String Unit)
    (refreshRes : Except String CounterAccount)
    (h : ¬(ctx.programPresent = true ∧ ctx.erPresent = true ∧
           ctx.walletPk.isSome = true ∧ ctx.counterPubkey.isSome = true)) :
    performErAction ctx m bhRes signRes sendRes confirmRes refreshRes =
      ([], .error "Counter not initialized or not delegated") := by
  obtain ⟨pp, ep, wpk, cpk, st, sp, sc⟩ := ctx
  cases pp <;> cases ep <;> rcases wpk with _ | w <;> rcases cpk with _ | cp <;>
    simp_all [performErAction]

/-- C5 amended-claim witness: a context whose rollup provider is missing
makes the routine fail with the guard error and an empty trace. -/
theorem erAction_precondition_witness :
    performErAction { ctxAll with erPresent := false } .increment (.ok 7)
        (.ok ()) (.ok "sig") (.ok ()) (.error "no fetch") =
      ([], .error "Counter not initialized or not delegated") :=
  erAction_precondition { ctxAll with erPresent := false } .increment (.ok 7)
    (.ok ()) (.ok "sig") (.ok ()) (.error "no fetch") (by decide)

/-- C6: a rollup-targeted mutating call builds its transaction on the
anchor fetched from the rollup connection (`bh` below is the outcome of
`erConnection.getLatestBlockhash()`; the routine takes no base-ledger
anchor at all), submits it with `skipPreflight = true` to the rollup,
awaits confirmation on the rollup, succeeds with the rollup transaction
hash even when the follow-up rollup value refresh fails, and applies the
refreshed value when the refresh succeeds. -/
theorem erAction_rollup_submission (ctx : Ctx) (w cp : PubKey) (m : MethodId)
    (bh : Nat) (txHash : String) (refreshRes : Except String CounterAccount)
    (hp : ctx.programPresent = true) (he : ctx.erPresent = true)
    (hw : ctx.walletPk = some w) (hc : ctx.counterPubkey = some cp) :
    (erTx ctx w cp m bh).blockhash = bh ∧
    (erTx ctx w cp m bh).ledger = .rollup ∧
    (erTx ctx w cp m bh).skipPreflight = true ∧
    Event.submit (erTx ctx w cp m bh) ∈
      (performErAction ctx m (.ok bh) (.ok ()) (.ok txHash) (.ok ()) refreshRes).1 ∧
    Event.confirmOn .rollup ∈
      (performErAction ctx m (.ok bh) (.ok ()) (.ok txHash) (.ok ()) refreshRes).1 ∧
    (performErAction ctx m (.ok bh) (.ok ()) (.ok txHash) (.ok ()) refreshRes).2 =
      .ok txHash ∧
    (∀ a : CounterAccount, refreshRes = .ok a →
      Event.setErValue (some a.count) ∈
        (performErAction ctx m (.ok bh) (.ok ()) (.ok txHash) (.ok ()) refreshRes).1) := by
  refine ⟨rfl, rfl, rfl, ?_, ?_, ?_, ?_⟩
  · cases refreshRes <;> simp [performErAction, hp, he, hw, hc, wrapTry]
  · cases refreshRes <;> simp [performErAction, hp, he, hw, hc, wrapTry]
  · cases refreshRes <;> simp [performErAction, hp, he, hw, hc, wrapTry]
  · intro a hra
    subst hra
    simp [performErAction, hp, he, hw, hc, wrapTry]

/-- C6 witness: rollup submission shape at a concrete context with a
successful refresh. -/
theorem erAction_rollup_submission_witness :
    (erTx ctxAll ⟨1⟩ ⟨2⟩ .decrement 9).blockhash = 9 ∧
    (erTx ctxAll ⟨1⟩ ⟨2⟩ .decrement 9).ledger = .rollup ∧
    (erTx ctxAll ⟨1⟩ ⟨2⟩ .decrement 9).skipPreflight = true ∧
    Event.submit (erTx ctxAll ⟨1⟩ ⟨2⟩ .decrement 9) ∈
      (performErAction ctxAll .decrement (.ok 9) (.ok ()) (.ok "h") (.ok ())
        (.ok ⟨6, ⟨1⟩⟩)).1 ∧
    Event.confirmOn .rollup ∈
      (performErAction ctxAll .decrement (.ok 9) (.ok ()) (.ok "h") (.ok ())
        (.ok ⟨6, ⟨1⟩⟩)).1 ∧
    (performErAction ctxAll .decrement (.ok 9) (.ok ()) (.ok "h") (.ok ())
      (.ok ⟨6, ⟨1⟩⟩)).2 = .ok "h" ∧
    (∀ a : CounterAccount,
        (Except.ok ⟨6, ⟨1⟩⟩ : Except String CounterAccount) = .ok a →
      Event.setErValue (some a.count) ∈
        (performErAction ctxAll .decrement (.ok 9) (.ok ()) (.ok "h") (.ok ())
          (.ok ⟨6, ⟨1⟩⟩)).1) :=
  erAction_rollup_submission ctxAll ⟨1⟩ ⟨2⟩ .decrement 9 "h" (.ok ⟨6, ⟨1⟩⟩)
    rfl rfl rfl rfl

/-- C7 counterexample: a fully successful undelegate run never invokes the
delegation-status check — its trace contains no `recheckStatus` marker (in
the source, unlike `delegate`, the `undelegate` routine never calls
`checkDelegationStatus`), refuting the claim that the operation schedules
a real delegation-status re-check in addition to the optimistic update. -/
theorem undelegate_no_recheck_cex :
    (undelegate ctxAll (.ok 7) (.ok ()) (.ok "u") (.ok ())
      (.ok ⟨4, ⟨1⟩⟩)).2 = .ok "u" ∧
    ((undelegate ctxAll (.ok 7) (.ok ()) (.ok "u") (.ok ())
      (.ok ⟨4, ⟨1⟩⟩)).1.all (fun e => !(e == Event.recheckStatus))) = true := by
  constructor
  · rfl
  · decide

/-- C7 (amended): a successful undelegate performs, in this order: build
and submit the undelegate transaction to the rollup ledger, await rollup
confirmation, wait the fixed 2000 ms settle interval, force the status to
`undelegated` and clear the cached rollup value (optimistic update), then
refresh the base-ledger account.  No delegation-status re-check is
scheduled by the operation itself; the real re-check arrives only through
the base-ledger subscription handler once the ownership change lands. -/
theorem undelegate_protocol_order (ctx : Ctx) (w cp : PubKey) (bh : Nat)
    (txHash : String) (fetchRes : FetchOutcome)
    (hp : ctx.programPresent = true) (he : ctx.erPresent = true)
    (hw : ctx.walletPk = some w) (hc : ctx.counterPubkey = some cp) :
    (undelegate ctx (.ok bh) (.ok ()) (.ok txHash) (.ok ()) fetchRes).1 =
      [.setLoading true, .setError none, .submit (undelegateTx w bh),
       .confirmOn .rollup, .waitMs 2000, .setStatus .undelegated,
       .setErValue none] ++ fetchCounterAccount ctx fetchRes ++
      [.setLoading false] ∧
    (undelegate ctx (.ok bh) (.ok ()) (.ok txHash) (.ok ()) fetchRes).2 =
      .ok txHash := by
  constructor
  · simp [undelegate, hp, he, hw, hc, wrapTry]
  · simp [undelegate, hp, he, hw, hc, wrapTry]

/-- C7 amended-claim witness: the undelegate trace at a concrete context
and environment. -/
theorem undelegate_protocol_order_witness :
    (undelegate ctxAll (.ok 7) (.ok ()) (.ok "u") (.ok ())
      (.ok ⟨4, ⟨1⟩⟩)).1 =
      [.setLoading true, .setError none, .submit (undelegateTx ⟨1⟩ 7),
       .confirmOn .rollup, .waitMs 2000, .setStatus .undelegated,
       .setErValue none] ++ fetchCounterAccount ctxAll (.ok ⟨4, ⟨1⟩⟩) ++
      [.setLoading false] ∧
    (undelegate ctxAll (.ok 7) (.ok ()) (.ok "u") (.ok ())
      (.ok ⟨4, ⟨1⟩⟩)).2 = .ok "u" :=
  undelegate_protocol_order ctxAll ⟨1⟩ ⟨2⟩ 7 "u" (.ok ⟨4, ⟨1⟩⟩) rfl rfl rfl rfl

/-- Whether an event writes the base-ledger account cell (only the fetch
routine emits such events). -/
def touchesAccount : Event → Bool
  | .setAccount _ => true
  | _ => false

/-- C8 counterexample: a successful base-layer increment ends without any
account-cell update in its trace — the operation does not trigger a fetch
of the account after its transaction (the source `increment` just returns
the signature; the same holds for `decrement` and `set`), refuting the
claim that every base-ledger mutating operation then triggers a fresh
fetch. -/
theorem increment_no_refetch_cex :
    (increment ctxAll 11 (.ok "t")).2 = .ok "t" ∧
    ((increment ctxAll 11 (.ok "t")).1.all (fun e => !touchesAccount e)) = true := by
  constructor
  · rfl
  · decide

/-- C8 (amended): each base-ledger mutating operation submits exactly one
transaction addressed to the base ledger, signed and fee-paid by the
primary wallet, with confirmation awaited (`.rpc()` at confirmed
commitment); `initialize` then triggers a fresh fetch of the account,
while `increment`, `decrement` and `set` do not — their refresh arrives
through the base-ledger subscription. -/
theorem base_ops_shape (ctx : Ctx) (w cp : PubKey) (bh v : Nat) (t : String)
    (fetchRes : FetchOutcome)
    (hp : ctx.programPresent = true) (hw : ctx.walletPk = some w)
    (hc : ctx.counterPubkey = some cp) :
    (∀ m : MethodId, (baseMutTx w cp m bh).ledger = .base ∧
      (baseMutTx w cp m bh).signedBy = w ∧ (baseMutTx w cp m bh).feePayer = w) ∧
    (initTx w bh).ledger = .base ∧ (initTx w bh).signedBy = w ∧
    (initializeCounter ctx bh (.ok t) fetchRes).1 =
      [.setLoading true, .setError none, .submit (initTx w bh), .confirmOn .base] ++
        fetchCounterAccount ctx fetchRes ++ [.setLoading false] ∧
    (initializeCounter ctx bh (.ok t) fetchRes).2 = .ok t ∧
    (increment ctx bh (.ok t)).1 =
      [.setLoading true, .setError none, .submit (baseMutTx w cp .increment bh),
       .confirmOn .base, .setLoading false] ∧
    (increment ctx bh (.ok t)).2 = .ok t ∧
    (decrement ctx bh (.ok t)).1 =
      [.setLoading true, .setError none, .submit (baseMutTx w cp .decrement bh),
       .confirmOn .base, .setLoading false] ∧
    (decrement ctx bh (.ok t)).2 = .ok t ∧
    (setOp ctx v bh (.ok t)).1 =
      [.setLoading true, .setError none, .submit (baseMutTx w cp (.setValue v) bh),
       .confirmOn .base, .setLoading false] ∧
    (setOp ctx v bh (.ok t)).2 = .ok t := by
  refine ⟨fun m => ⟨rfl, rfl, rfl⟩, rfl, rfl, ?_, ?_, ?_, ?_, ?_, ?_, ?_, ?_⟩ <;>
    simp [initializeCounter, increment, decrement, setOp, hp, hw, hc, wrapTry]

/-- C8 amended-claim witness: the base operation shapes at a concrete
context and environment. -/
theorem base_ops_shape_witness :
    (∀ m : MethodId, (baseMutTx ⟨1⟩ ⟨2⟩ m 11).ledger = .base ∧
      (baseMutTx ⟨1⟩ ⟨2⟩ m 11).signedBy = ⟨1⟩ ∧
      (baseMutTx ⟨1⟩ ⟨2⟩ m 11).feePayer = ⟨1⟩) ∧
    (initTx ⟨1⟩ 11).ledger = .base ∧ (initTx ⟨1⟩ 11).signedBy = ⟨1⟩ ∧
    (initializeCounter ctxAll 11 (.ok "t") (.ok ⟨0, ⟨1⟩⟩)).1 =
      [.setLoading true, .setError none, .submit (initTx ⟨1⟩ 11), .confirmOn .base] ++
        fetchCounterAccount ctxAll (.ok ⟨0, ⟨1⟩⟩) ++ [.setLoading false] ∧
    (initializeCounter ctxAll 11 (.ok "t") (.ok ⟨0, ⟨1⟩⟩)).2 = .ok "t" ∧
    (increment ctxAll 11 (.ok "t")).1 =
      [.setLoading true, .setError none, .submit (baseMutTx ⟨1⟩ ⟨2⟩ .increment 11),
       .confirmOn .base, .setLoading false] ∧
    (increment ctxAll 11 (.ok "t")).2 = .ok "t" ∧
    (decrement ctxAll 11 (.ok "t")).1 =
      [.setLoading true, .setError none, .submit (baseMutTx ⟨1⟩ ⟨2⟩ .decrement 11),
       .confirmOn .base, .setLoading false] ∧
    (decrement ctxAll 11 (.ok "t")).2 = .ok "t" ∧
    (setOp ctxAll 41 11 (.ok "t")).1 =
      [.setLoading true, .setError none, .submit (baseMutTx ⟨1⟩ ⟨2⟩ (.setValue 41) 11),
       .confirmOn .base, .setLoading false] ∧
    (setOp ctxAll 41 11 (.ok "t")).2 = .ok "t" :=
  base_ops_shape ctxAll ⟨1⟩ ⟨2⟩ 11 41 "t" (.ok ⟨0, ⟨1⟩⟩) rfl rfl rfl

/-- C10: the base-layer `increment`, `decrement` and `set` operations pass
an explicit null session-token account, name the primary wallet key as the
signer account, and are signed and fee-paid by the primary wallet — for
every context, in particular whatever session credential is active at the
time of the call (the context below carries an arbitrary session state
that the three operations never read). -/
theorem base_ops_ignore_session (ctx : Ctx) (w cp : PubKey) (bh v : Nat)
    (t : String)
    (hp : ctx.programPresent = true) (hw : ctx.walletPk = some w)
    (hc : ctx.counterPubkey = some cp) :
    ((baseMutTx w cp .increment bh).accSessionToken = none ∧
      (baseMutTx w cp .increment bh).accSigner = some w ∧
      (baseMutTx w cp .increment bh).signedBy = w ∧
      (baseMutTx w cp .increment bh).feePayer = w) ∧
    ((baseMutTx w cp .decrement bh).accSessionToken = none ∧
      (baseMutTx w cp .decrement bh).accSigner = some w ∧
      (baseMutTx w cp .decrement bh).signedBy = w ∧
      (baseMutTx w cp .decrement bh).feePayer = w) ∧
    ((baseMutTx w cp (.setValue v) bh).accSessionToken = none ∧
      (baseMutTx w cp (.setValue v) bh).accSigner = some w ∧
      (baseMutTx w cp (.setValue v) bh).signedBy = w ∧
      (baseMutTx w cp (.setValue v) bh).feePayer = w) ∧
    Event.submit (baseMutTx w cp .increment bh) ∈ (increment ctx bh (.ok t)).1 ∧
    Event.submit (baseMutTx w cp .decrement bh) ∈ (decrement ctx bh (.ok t)).1 ∧
    Event.submit (baseMutTx w cp (.setValue v) bh) ∈ (setOp ctx v bh (.ok t)).1 := by
  refine ⟨⟨rfl, rfl, rfl, rfl⟩, ⟨rfl, rfl, rfl, rfl⟩, ⟨rfl, rfl, rfl, rfl⟩,
    ?_, ?_, ?_⟩ <;>
    simp [increment, decrement, setOp, hp, hw, hc, wrapTry]

/-- C10 witness: the three base operations in a context whose session is
active and signing-capable still name the primary wallet throughout. -/
theorem base_ops_ignore_session_witness :
    ((baseMutTx ⟨1⟩ ⟨2⟩ .increment 13).accSessionToken = none ∧
      (baseMutTx ⟨1⟩ ⟨2⟩ .increment 13).accSigner = some ⟨1⟩ ∧
      (baseMutTx ⟨1⟩ ⟨2⟩ .increment 13).signedBy = ⟨1⟩ ∧
      (baseMutTx ⟨1⟩ ⟨2⟩ .increment 13).feePayer = ⟨1⟩) ∧
    ((baseMutTx ⟨1⟩ ⟨2⟩ .decrement 13).accSessionToken = none ∧
      (baseMutTx ⟨1⟩ ⟨2⟩ .decrement 13).accSigner = some ⟨1⟩ ∧
      (baseMutTx ⟨1⟩ ⟨2⟩ .decrement 13).signedBy = ⟨1⟩ ∧
      (baseMutTx ⟨1⟩ ⟨2⟩ .decrement 13).feePayer = ⟨1⟩) ∧
    ((baseMutTx ⟨1⟩ ⟨2⟩ (.setValue 41) 13).accSessionToken = none ∧
      (baseMutTx ⟨1⟩ ⟨2⟩ (.setValue 41) 13).accSigner = some ⟨1⟩ ∧
      (baseMutTx ⟨1⟩ ⟨2⟩ (.setValue 41) 13).signedBy = ⟨1⟩ ∧
      (baseMutTx ⟨1⟩ ⟨2⟩ (.setValue 41) 13).feePayer = ⟨1⟩) ∧
    Event.submit (baseMutTx ⟨1⟩ ⟨2⟩ .increment 13) ∈
      (increment ctxSession 13 (.ok "t")).1 ∧
    Event.submit (baseMutTx ⟨1⟩ ⟨2⟩ .decrement 13) ∈
      (decrement ctxSession 13 (.ok "t")).1 ∧
    Event.submit (baseMutTx ⟨1⟩ ⟨2⟩ (.setValue 41) 13) ∈
      (setOp ctxSession 41 13 (.ok "t")).1 :=
  base_ops_ignore_session ctxSession ⟨1⟩ ⟨2⟩ 13 41 "t" rfl rfl rfl

/-- Uniform busy/error discipline of a mutating operation: its trace opens
with the given setter prefix (busy set before the attempt, error slot
cleared), the busy flag is false at every exit, a failure result leaves
its message in the error slot, and a success result leaves the error slot
equal to `okErr`. -/
def disciplined (r : List Event × Except String String) (opening : List Event)
    (okErr : Option String) : Prop :=
  (∃ rest, r.1 = opening ++ rest) ∧
  (∀ s : HookState, (run s r.1).isLoading = false) ∧
  (∀ (s : HookState) (e : String), r.2 = .error e → (run s r.1).error = some e) ∧
  (∀ (s : HookState) (t : String), r.2 = .ok t → (run s r.1).error = okErr)

theorem wrapTry_spec (evs : List Event) (res : Except String String)
    (okErr : Option String)
    (hB : ∀ s : HookState, s.error = none → ∀ t : String, res = .ok t →
      (run s evs).error = okErr) :
    disciplined (wrapTry (evs, res)) [.setLoading true, .setError none] okErr := by
  cases res with
  | ok r =>
      refine ⟨⟨evs ++ [.setLoading false], by simp [wrapTry]⟩, ?_, ?_, ?_⟩
      · intro s
        show (run s (.setLoading true :: .setError none ::
          (evs ++ [.setLoading false]))).isLoading = false
        rw [run_cons, run_cons, run_append]
        simp [run, applyEvent]
      · intro s e hres
        simp [wrapTry] at hres
      · intro s t hres
        have hrt : r = t := by simpa [wrapTry] using hres
        subst hrt
        show (run s (.setLoading true :: .setError none ::
          (evs ++ [.setLoading false]))).error = okErr
        rw [run_cons, run_cons, run_append]
        have h2 := hB (applyEvent (applyEvent s (.setLoading true)) (.setError none))
          (by simp [applyEvent]) r rfl
        simpa [run, applyEvent] using h2
  | error e =>
      refine ⟨⟨evs ++ [.setError (some e), .setLoading false], by simp [wrapTry]⟩, ?_, ?_, ?_⟩
      · intro s
        show (run s (.setLoading true :: .setError none ::
          (evs ++ [.setError (some e), .setLoading false]))).isLoading = false
        rw [run_cons, run_cons, run_append]
        simp [run, applyEvent]
      · intro s e' hres
        have hee : e = e' := by simpa [wrapTry] using hres
        subst hee
        show (run s (.setLoading true :: .setError none ::
          (evs ++ [.setError (some e), .setLoading false]))).error = some e
        rw [run_cons, run_cons, run_append]
        simp [run, applyEvent]
      · intro s t hres
        simp [wrapTry] at hres

/-- C9 counterexample: `initialize` can succeed (returning the signature)
while its internal post-success account fetch fails with an unexpected
message, which populates the error slot — refuting the claim that on
success the error slot stays clear. -/
theorem initialize_error_on_success_cex :
    (initializeCounter ctxAll 3 (.ok "t") (.err "decode failure xyz")).2 =
      .ok "t" ∧
    (run sUndelegated
      (initializeCounter ctxAll 3 (.ok "t") (.err "decode failure xyz")).1).error =
      some "decode failure xyz" := by
  constructor
  · rfl
  · decide

/-- C9 (amended): every mutating operation whose entry guard is met runs
under the uniform try/finally discipline — the busy flag is set before the
attempt and is false on every exit, the error slot is cleared at entry, a
failure records its message in the error slot and re-raises (the `.error`
result), and a success leaves the error slot clear except that, for the
operations that refresh the base account inside the attempt (`initialize`,
`commit`, `undelegate`), an unexpected fetch failure leaves that message
in the slot (`fetchErrSlot`) even though the operation succeeds.
Operations whose entry guard fails throw before touching the busy flag or
the error slot. -/
theorem mutating_ops_discipline (ctx : Ctx) (w cp : PubKey) (bh v : Nat)
    (m : MethodId) (rpcRes : Except String String) (fRes : FetchOutcome)
    (bhRes : Except String Nat) (signRes : Except String Unit)
    (sendRes : Except String String) (confirmRes : Except String Unit)
    (refreshRes : Except String CounterAccount)
    (aiRes : Except String (Option AccountInfo))
    (erfRes : Except String CounterAccount)
    (hp : ctx.programPresent = true) (he : ctx.erPresent = true)
    (hw : ctx.walletPk = some w) (hc : ctx.counterPubkey = some cp) :
    disciplined (initializeCounter ctx bh rpcRes fRes)
      [.setLoading true, .setError none] (fetchErrSlot fRes) ∧
    disciplined (increment ctx bh rpcRes)
      [.setLoading true, .setError none] none ∧
    disciplined (decrement ctx bh rpcRes)
      [.setLoading true, .setError none] none ∧
    disciplined (setOp ctx v bh rpcRes)
      [.setLoading true, .setError none] none ∧
    disciplined (performErAction ctx m bhRes signRes sendRes confirmRes refreshRes)
      [.setLoading true, .setError none] none ∧
    disciplined (delegate ctx bh rpcRes aiRes erfRes)
      [.setLoading true, .setDelegating true, .setError none] none ∧
    disciplined (commit ctx bhRes signRes sendRes confirmRes fRes)
      [.setLoading true, .setError none] (fetchErrSlot fRes) ∧
    disciplined (undelegate ctx bhRes signRes sendRes confirmRes fRes)
      [.setLoading true, .setError none] (fetchErrSlot fRes) := by
  have hcs : ctx.counterPubkey.isSome = true := by simp [hc]
  refine ⟨?_, ?_, ?_, ?_, ?_, ?_, ?_, ?_⟩
  · -- initialize
    rw [show initializeCounter ctx bh rpcRes fRes =
        wrapTry (match rpcRes with
          | .error e => ([], .error e)
          | .ok t => ([.submit (initTx w bh), .confirmOn .base] ++
              fetchCounterAccount ctx fRes, .ok t)) by
      simp [initializeCounter, hp, hw]]
    cases rpcRes with
    | error e =>
        apply wrapTry_spec
        intro s hs t h
        simp at h
    | ok t0 =>
        apply wrapTry_spec
        intro s hs t h
        rw [run_append]
        have hpre : run s [Event.submit (initTx w bh), Event.confirmOn .base] = s := by
          simp [run, applyEvent]
        rw [hpre]
        exact run_fetch_error ctx fRes s hp hcs hs
  · -- increment
    rw [show increment ctx bh rpcRes =
        wrapTry (match rpcRes with
          | .error e => ([], .error e)
          | .ok t => ([.submit (baseMutTx w cp .increment bh), .confirmOn .base], .ok t)) by
      simp [increment, hp, hw, hc]]
    cases rpcRes with
    | error e =>
        apply wrapTry_spec
        intro s hs t h
        simp at h
    | ok t0 =>
        apply wrapTry_spec
        intro s hs t h
        simp [run, applyEvent, hs]
  · -- decrement
    rw [show decrement ctx bh rpcRes =
        wrapTry (match rpcRes with
          | .error e => ([], .error e)
          | .ok t => ([.submit (baseMutTx w cp .decrement bh), .confirmOn .base], .ok t)) by
      simp [decrement, hp, hw, hc]]
    cases rpcRes with
    | error e =>
        apply wrapTry_spec
        intro s hs t h
        simp at h
    | ok t0 =>
        apply wrapTry_spec
        intro s hs t h
        simp [run, applyEvent, hs]
  · -- setOp
    rw [show setOp ctx v bh rpcRes =
        wrapTry (match rpcRes with
          | .error e => ([], .error e)
          | .ok t => ([.submit (baseMutTx w cp (.setValue v) bh), .confirmOn .base], .ok t)) by
      simp [setOp, hp, hw, hc]]
    cases rpcRes with
    | error e =>
        apply wrapTry_spec
        intro s hs t h
        simp at h
    | ok t0 =>
        apply wrapTry_spec
        intro s hs t h
        simp [run, applyEvent, hs]
  · -- performErAction
    rw [show performErAction ctx m bhRes signRes sendRes confirmRes refreshRes =
        wrapTry (match bhRes with
          | .error e => ([], .error e)
          | .ok bh =>
            match signRes with
            | .error e => ([], .error e)
            | .ok _ =>
              match sendRes with
              | .error e => ([.submit (erTx ctx w cp m bh)], .error e)
              | .ok txHash =>
                match confirmRes with
                | .error e => ([.submit (erTx ctx w cp m bh), .confirmOn .rollup], .error e)
                | .ok _ =>
                    ([.submit (erTx ctx w cp m bh), .confirmOn .rollup] ++
                      (match refreshRes with
                       | .ok a => [.setErValue (some a.count)]
                       | .error _ => []), .ok txHash)) by
      simp [performErAction, hp, he, hw, hc]]
    apply wrapTry_spec
    intro s hs t h
    rcases bhRes with e | bh0
    · simp at h
    · rcases signRes with e | u
      · simp at h
      · rcases sendRes with e | tx0
        · simp at h
        · rcases confirmRes with e | u2
          · simp at h
          · rcases refreshRes with e | a <;> simp [run, applyEvent, hs]
  · -- delegate
    cases rpcRes with
    | error e =>
        have htr : (delegate ctx bh (Except.error e) aiRes erfRes).1 =
            [Event.setLoading true, Event.setDelegating true, Event.setError none,
             Event.setError (some e), Event.setLoading false,
             Event.setDelegating false] := by
          simp [delegate, hp, hw]
        have hres : (delegate ctx bh (Except.error e) aiRes erfRes).2 =
            Except.error e := by
          simp [delegate, hp, hw]
        refine ⟨⟨[Event.setError (some e), Event.setLoading false,
          Event.setDelegating false], by rw [htr]; rfl⟩, ?_, ?_, ?_⟩
        · intro s
          rw [htr]
          simp [run, applyEvent]
        · intro s e' h
          rw [hres] at h
          have hee : e = e' := by simpa using h
          subst hee
          rw [htr]
          simp [run, applyEvent]
        · intro s t h
          rw [hres] at h
          simp at h
    | ok t0 =>
        have htr : (delegate ctx bh (Except.ok t0) aiRes erfRes).1 =
            Event.setLoading true :: Event.setDelegating true :: Event.setError none ::
              (([Event.submit (delegateTx w bh), Event.confirmOn .base,
                 Event.waitMs 2000, Event.recheckStatus] ++
                checkDelegationStatus ctx aiRes erfRes) ++
               [Event.setLoading false, Event.setDelegating false]) := by
          simp [delegate, hp, hw]
        have hres : (delegate ctx bh (Except.ok t0) aiRes erfRes).2 =
            Except.ok t0 := by
          simp [delegate, hp, hw]
        refine ⟨⟨([Event.submit (delegateTx w bh), Event.confirmOn .base,
            Event.waitMs 2000, Event.recheckStatus] ++
            checkDelegationStatus ctx aiRes erfRes) ++
            [Event.setLoading false, Event.setDelegating false],
          by rw [htr]; rfl⟩, ?_, ?_, ?_⟩
        · intro s
          rw [htr, run_cons, run_cons, run_cons, run_append]
          simp [run, applyEvent]
        · intro s e h
          rw [hres] at h
          simp at h
        · intro s t h
          rw [htr, run_cons, run_cons, run_cons, run_append, run_append]
          have h1 : ∀ s' : HookState,
              run s' [Event.submit (delegateTx w bh), Event.confirmOn .base,
                Event.waitMs 2000, Event.recheckStatus] = s' := by
            intro s'
            simp [run, applyEvent]
          rw [h1]
          have h2 := run_check_error ctx aiRes erfRes
            (applyEvent (applyEvent (applyEvent s (.setLoading true))
              (.setDelegating true)) (.setError none))
          simp [run, applyEvent] at h2 ⊢
          rw [h2]
  · -- commit
    rw [show commit ctx bhRes signRes sendRes confirmRes fRes =
        wrapTry (match bhRes with
          | .error e => ([], .error e)
          | .ok bh =>
            match signRes with
            | .error e => ([], .error e)
            | .ok _ =>
              match sendRes with
              | .error e => ([.submit (commitTx w bh)], .error e)
              | .ok txHash =>
                match confirmRes with
                | .error e => ([.submit (commitTx w bh), .confirmOn .rollup], .error e)
                | .ok _ =>
                    ([.submit (commitTx w bh), .confirmOn .rollup] ++
                      fetchCounterAccount ctx fRes, .ok txHash)) by
      simp [commit, hp, he, hw, hc]]
    apply wrapTry_spec
    intro s hs t h
    rcases bhRes with e | bh0
    · simp at h
    · rcases signRes with e | u
      · simp at h
      · rcases sendRes with e | tx0
        · simp at h
        · rcases confirmRes with e | u2
          · simp at h
          · rw [run_append]
            have hpre : run s [Event.submit (commitTx w bh0), Event.confirmOn .rollup] = s := by
              simp [run, applyEvent]
            rw [hpre]
            exact run_fetch_error ctx fRes s hp hcs hs
  · -- undelegate
    rw [show undelegate ctx bhRes signRes sendRes confirmRes fRes =
        wrapTry (match bhRes with
          | .error e => ([], .error e)
          | .ok bh =>
            match signRes with
            | .error e => ([], .error e)
            | .ok _ =>
              match sendRes with
              | .error e => ([.submit (undelegateTx w bh)], .error e)
              | .ok txHash =>
                match confirmRes with
                | .error e => ([.submit (undelegateTx w bh), .confirmOn .rollup], .error e)
                | .ok _ =>
                    ([.submit (undelegateTx w bh), .confirmOn .rollup, .waitMs 2000,
                      .setStatus .undelegated, .setErValue none] ++
                      fetchCounterAccount ctx fRes, .ok txHash)) by
      simp [undelegate, hp, he, hw, hc]]
    apply wrapTry_spec
    intro s hs t h
    rcases bhRes with e | bh0
    · simp at h
    · rcases signRes with e | u
      · simp at h
      · rcases sendRes with e | tx0
        · simp at h
        · rcases confirmRes with e | u2
          · simp at h
          · rw [run_append]
            have hpre : (run s [Event.submit (undelegateTx w bh0),
                Event.confirmOn .rollup, Event.waitMs 2000,
                Event.setStatus .undelegated, Event.setErValue none]).error = s.error := by
              simp [run, applyEvent]
            exact run_fetch_error ctx fRes _ hp hcs (by rw [hpre]; exact hs)

/-- C9 amended-claim witness: the discipline at a concrete context and
environment for all eight operations. -/
theorem mutating_ops_discipline_witness :
    disciplined (initializeCounter ctxAll 3 (.ok "t") (.ok ⟨0, ⟨1⟩⟩))
      [.setLoading true, .setError none] (fetchErrSlot (.ok ⟨0, ⟨1⟩⟩)) ∧
    disciplined (increment ctxAll 3 (.ok "t"))
      [.setLoading true, .setError none] none ∧
    disciplined (decrement ctxAll 3 (.ok "t"))
      [.setLoading true, .setError none] none ∧
    disciplined (setOp ctxAll 41 3 (.ok "t"))
      [.setLoading true, .setError none] none ∧
    disciplined (performErAction ctxAll .increment (.ok 3) (.ok ()) (.ok "t")
        (.ok ()) (.ok ⟨5, ⟨1⟩⟩))
      [.setLoading true, .setError none] none ∧
    disciplined (delegate ctxAll 3 (.ok "t") (.ok none) (.ok ⟨5, ⟨1⟩⟩))
      [.setLoading true, .setDelegating true, .setError none] none ∧
    disciplined (commit ctxAll (.ok 3) (.ok ()) (.ok "t") (.ok ()) (.ok ⟨0, ⟨1⟩⟩))
      [.setLoading true, .setError none] (fetchErrSlot (.ok ⟨0, ⟨1⟩⟩)) ∧
    disciplined (undelegate ctxAll (.ok 3) (.ok ()) (.ok "t") (.ok ()) (.ok ⟨0, ⟨1⟩⟩))
      [.setLoading true, .setError none] (fetchErrSlot (.ok ⟨0, ⟨1⟩⟩)) :=
  mutating_ops_discipline ctxAll ⟨1⟩ ⟨2⟩ 3 41 .increment (.ok "t") (.ok ⟨0, ⟨1⟩⟩)
    (.ok 3) (.ok ()) (.ok "t") (.ok ()) (.ok ⟨5, ⟨1⟩⟩) (.ok none) (.ok ⟨5, ⟨1⟩⟩)
    rfl rfl rfl rfl

end CounterEngine
